import Mathlib

/-!
Verification development for the event-ingestion pipeline
(fetch → parse → normalize workers, search-task orchestrator,
geocoding / dedup / scoring subsystem).

The Lean definitions below are shallow embeddings of the Python source:

* `worker_normalize.py` : `make_fp`, `score`, `normalize_string`,
  `get_metro_id_for_coords`, the final-metro-id choice in
  `process_raw_event`, and the batch loop of `worker_normalize`
  (modelled as an explicit transaction-state machine);
* `worker_parse.py` : the admission checks and the
  `source_event_id` computation of `worker_parse`;
* `discovery_enhanced_events_only.py` : the
  `ON CONFLICT (source, source_event_id) DO NOTHING` insert used by
  `insert_into_event_raw` (and identically by the parse worker), and the
  polling loop of `poll_task_results`;
* `places_api_helper.py` : `check_api_usage_limits` and
  `resolve_venue_address`.

External collaborators (the dateutil parser, the Places / Nominatim HTTP
APIs, the PostGIS `ST_Covers` evaluation) are modelled as explicit
function parameters or boolean fields, since their code is not part of
this repository; everything else is translated from the source.

Machine integers are modelled as `Nat` with explicit reduction
`% 2 ^ 32` where 32-bit overflow matters (the SHA-1 core).  Python float
quantities that only ever take dyadic-rational values in the modelled
code paths (poll intervals, quality scores) are modelled as `Rat`, which
represents those values exactly.
-/

/-! ### SHA-1 (hashlib.sha1(...).hexdigest() as used by make_fp) -/

/-- Reduce a natural number to a 32-bit word. -/
def w32 (n : Nat) : Nat := n % 4294967296

/-- Left-rotate the 32-bit word `n` by `b` bits. -/
def rotl32 (b n : Nat) : Nat := w32 (n * 2 ^ b + n / 2 ^ (32 - b))

/-- Big-endian byte rendering of `n` on `k` bytes. -/
def beBytes (k n : Nat) : List Nat :=
  (List.range k).map (fun i => n / 2 ^ (8 * (k - 1 - i)) % 256)

/-- SHA-1 message padding: append `0x80`, zeros to 56 mod 64, then the
bit length on 8 big-endian bytes. -/
def sha1Pad (msg : List Nat) : List Nat :=
  msg ++ [128] ++ List.replicate ((119 - msg.length % 64) % 64) 0 ++ beBytes 8 (8 * msg.length)

/-- The 16 big-endian 32-bit words of one 64-byte chunk. -/
def wordsOfChunk (c : List Nat) : List Nat :=
  (List.range 16).map (fun i =>
    c.getD (4 * i) 0 * 16777216 + c.getD (4 * i + 1) 0 * 65536 +
    c.getD (4 * i + 2) 0 * 256 + c.getD (4 * i + 3) 0)

/-- Extend the 16 chunk words to the 80 SHA-1 schedule words, `k` steps
at a time (structural recursion on the step count). -/
def sha1Extend : Nat → List Nat → List Nat
  | 0, w => w
  | k + 1, w =>
      let i := w.length
      let x := rotl32 1 (Nat.xor (Nat.xor (w.getD (i - 3) 0) (w.getD (i - 8) 0))
        (Nat.xor (w.getD (i - 14) 0) (w.getD (i - 16) 0)))
      sha1Extend k (w ++ [x])

/-- One SHA-1 compression round as a fold step over the round index. -/
def sha1RoundStep (ws : List Nat) (st : Nat × Nat × Nat × Nat × Nat) (i : Nat) :
    Nat × Nat × Nat × Nat × Nat :=
  let a := st.1; let b := st.2.1; let c := st.2.2.1; let d := st.2.2.2.1; let e := st.2.2.2.2
  let f :=
    if i < 20 then Nat.lor (Nat.land b c) (Nat.land (4294967295 - b) d)
    else if i < 40 then Nat.xor (Nat.xor b c) d
    else if i < 60 then Nat.lor (Nat.lor (Nat.land b c) (Nat.land b d)) (Nat.land c d)
    else Nat.xor (Nat.xor b c) d
  let k :=
    if i < 20 then 1518500249
    else if i < 40 then 1859775393
    else if i < 60 then 2400959708
    else 3395469782
  (w32 (rotl32 5 a + f + e + k + ws.getD i 0), a, rotl32 30 b, c, d)

/-- The 80 compression rounds on one chunk. -/
def sha1Rounds (ws : List Nat) (h : Nat × Nat × Nat × Nat × Nat) :
    Nat × Nat × Nat × Nat × Nat :=
  (List.range 80).foldl (sha1RoundStep ws) h

/-- Process the padded message 64 bytes at a time (fuel-indexed so that
the recursion is structural and kernel-reducible). -/
def sha1Chunks : Nat → List Nat → Nat × Nat × Nat × Nat × Nat → Nat × Nat × Nat × Nat × Nat
  | 0, _, h => h
  | _ + 1, [], h => h
  | fuel + 1, bytes, h =>
      let ws := sha1Extend 64 (wordsOfChunk (bytes.take 64))
      let r := sha1Rounds ws h
      sha1Chunks fuel (bytes.drop 64)
        (w32 (h.1 + r.1), w32 (h.2.1 + r.2.1), w32 (h.2.2.1 + r.2.2.1),
         w32 (h.2.2.2.1 + r.2.2.2.1), w32 (h.2.2.2.2 + r.2.2.2.2))

/-- Lowercase hexadecimal digit for `n < 16`. -/
def hexDigitCh (n : Nat) : Char :=
  if n < 10 then Char.ofNat (48 + n) else Char.ofNat (87 + n)

/-- Fixed-width (`k` digit) lowercase hexadecimal rendering of `n`. -/
def hexFixed (k n : Nat) : List Char :=
  (List.range k).map (fun i => hexDigitCh (n / 16 ^ (k - 1 - i) % 16))

/-- The 40 hexadecimal characters of the SHA-1 digest of a byte string. -/
def sha1hexChars (msg : List Nat) : List Char :=
  let padded := sha1Pad msg
  let h := sha1Chunks padded.length padded
    (1732584193, 4023233417, 2562383102, 271733878, 3285377520)
  hexFixed 8 h.1 ++ hexFixed 8 h.2.1 ++ hexFixed 8 h.2.2.1 ++
    hexFixed 8 h.2.2.2.1 ++ hexFixed 8 h.2.2.2.2

/-- UTF-8 bytes of a string, as naturals (Python str.encode()); written
over String.data so that the kernel can evaluate it, matching the model
definition of String.toUTF8. -/
def strBytes (s : String) : List Nat :=
  (s.data.flatMap String.utf8EncodeChar).map (fun b => b.toNat)

/-- Python hashlib.sha1 of the encoded string, as a hexdigest. -/
def sha1hex (s : String) : String := String.mk (sha1hexChars (strBytes s))

/-! ### worker_normalize.py helpers: normalize_string, make_fp, score -/

/-- A Python datetime as produced by dateutil.parser.parse: we model the
calendar fields that the normalizer observes (a datetime object is
always truthy; make_fp only reads strftime of year-month-day). -/
structure PyDatetime where
  year : Nat
  month : Nat
  day : Nat
  hour : Nat := 0
  minute : Nat := 0
  second : Nat := 0
deriving DecidableEq

/-- Zero-padded fixed-width decimal rendering (str.zfill-like), used for
strftime fields. -/
def padNum (k n : Nat) : String :=
  let s := toString n
  String.mk (List.replicate (k - s.length) '0') ++ s

/-- Python start_ts.strftime of the year-month-day pattern. -/
def strftimeYmd (d : PyDatetime) : String :=
  padNum 4 d.year ++ "-" ++ padNum 2 d.month ++ "-" ++ padNum 2 d.day

/-- Python truthiness of an optional string: None and the empty string
are falsy. -/
def pyTruthyStr : Option String → Bool
  | none => false
  | some s => s ≠ ""

/-- Python str.strip(): drop leading and trailing whitespace characters.
(Python also strips some exotic Unicode whitespace; on the common
whitespace characters of Char.isWhitespace the two agree.) -/
def pyStrip (s : String) : String :=
  String.mk (((s.data.dropWhile Char.isWhitespace).reverse.dropWhile
    Char.isWhitespace).reverse)

/-- worker_normalize.normalize_string: None (or any falsy input) maps to
None, otherwise the string is stripped of surrounding whitespace. -/
def normalize_string (t : Option String) : Option String :=
  match t with
  | none => none
  | some s => if s = "" then none else some (pyStrip s)

/-- worker_normalize.make_fp: None unless the title is truthy, the start
timestamp is present and metro_id is not None (0 is allowed); None again
if the normalized title is empty; otherwise the first 16 hex characters
of the SHA-1 of "title|YYYY-MM-DD|metro_id". -/
def make_fp (title : Option String) (start_ts : Option PyDatetime)
    (metro_id : Option Int) : Option String :=
  match title, start_ts, metro_id with
  | some t, some ts, some mid =>
    if t = "" then none
    else
      match normalize_string (some t) with
      | none => none
      | some normTitle =>
        if normTitle = "" then none
        else some (String.mk ((sha1hexChars (strBytes
          (normTitle ++ "|" ++ strftimeYmd ts ++ "|" ++ toString mid))).take 16))
  | _, _, _ => none

/-- The dictionary handed to score and to the event_clean INSERT by
worker_normalize (keys as in process_raw_event's output dict). -/
structure NormalizedEvent where
  event_raw_id : Nat
  source : String
  source_event_id : Option String
  title : Option String
  description : Option String
  url : Option String
  start_ts : Option PyDatetime
  end_ts : Option PyDatetime
  venueName : Option String
  venueAddress : Option String
  venueGeom : Option String
  imageUrl : Option String
  tags : List String
  metro_id : Option Int
  price_val : Option Rat
  price_ccy : Option String
  fingerprint : Option String := none
  quality_score : Option Nat := none
deriving DecidableEq

/-- worker_normalize.score: one addend per `if` of the source, in source
order.  (The source accumulates into a Python float, but every addend is
a whole number, so the value is modelled exactly in Nat.) -/
def score (evt : NormalizedEvent) : Nat :=
  (if pyTruthyStr evt.title then 10 else 0) +
  (if evt.start_ts.isSome then 10 else 0) +
  (if pyTruthyStr evt.venueGeom ∧ evt.venueGeom ≠ some "POINT(None None)" then 10 else 0) +
  (if pyTruthyStr evt.venueName then 5 else 0) +
  (if 50 < (evt.description.getD "").length then 5 else 0) +
  (if evt.price_val.isSome then 3 else 0) +
  (if evt.source = "eventbrite" ∨ evt.source = "meetup" ∨ evt.source = "ticketmaster"
    then 3 else 0) +
  (if pyTruthyStr evt.url then 2 else 0) +
  (if pyTruthyStr evt.imageUrl then 2 else 0) +
  (if evt.tags ≠ [] then 1 else 0)

/-- Modelled from the spec: the additive quality-score heuristic as the
specification words it — 10 points each for title, start timestamp and
resolved geometry; 5 each for venue name and a description longer than
50 characters; 3 each for a non-null price and a trusted source; 2 each
for URL and image; 1 for any tags.  ("Resolved geometry" is a geometry
value other than null and other than the unresolved sentinel.) -/
def score_specification (evt : NormalizedEvent) : Nat :=
  (if pyTruthyStr evt.title then 10 else 0) +
  (if evt.start_ts.isSome then 10 else 0) +
  (if pyTruthyStr evt.venueGeom ∧ evt.venueGeom ≠ some "POINT(None None)" then 10 else 0) +
  (if pyTruthyStr evt.venueName then 5 else 0) +
  (if 50 < (evt.description.getD "").length then 5 else 0) +
  (if evt.price_val.isSome then 3 else 0) +
  (if evt.source = "eventbrite" ∨ evt.source = "meetup" ∨ evt.source = "ticketmaster"
    then 3 else 0) +
  (if pyTruthyStr evt.url then 2 else 0) +
  (if pyTruthyStr evt.imageUrl then 2 else 0) +
  (if evt.tags ≠ [] then 1 else 0)

/-! ### A JSON value model (the shape of Redis packages and JSON-LD blobs) -/

/-- Decoded JSON values, as json.loads produces them (dict keys in
document order; dict.get takes the first matching key, and a decoded
dict has unique keys anyway). -/
inductive JVal where
  | jnull : JVal
  | jbool : Bool → JVal
  | jnum : Rat → JVal
  | jstr : String → JVal
  | jarr : List JVal → JVal
  | jobj : List (String × JVal) → JVal

/-- dict.get(k): the value under key `k` when the value is an object. -/
def JVal.get : JVal → String → Option JVal
  | JVal.jobj fs, k => (fs.find? (fun p => p.1 = k)).map (fun p => p.2)
  | _, _ => none

/-- Python truthiness of a decoded JSON value. -/
def JVal.truthy : JVal → Bool
  | JVal.jnull => false
  | JVal.jbool b => b
  | JVal.jnum q => q ≠ 0
  | JVal.jstr s => s ≠ ""
  | JVal.jarr xs => !xs.isEmpty
  | JVal.jobj fs => !fs.isEmpty

/-- Python truthiness of dict.get's result (None is falsy). -/
def pyTruthy : Option JVal → Bool
  | none => false
  | some v => v.truthy

/-- Python `x is None` for dict.get's result: the key is absent or its
JSON value was null (json.loads maps null to None). -/
def pyIsNone : Option JVal → Bool
  | none => true
  | some JVal.jnull => true
  | _ => false

/-! ### worker_parse.py: admission checks and source_event_id -/

/-- Membership in worker_parse.APPROVED_EVENT_TYPES. -/
def approvedTypeName (s : String) : Bool :=
  s = "Event" || s = "DanceEvent" || s = "SocialDance"

/-- Whether a decoded JSON value is unhashable in Python: dicts and
lists are; strings, numbers, booleans and null are hashable. -/
def pyUnhashable : JVal → Bool
  | JVal.jobj _ => true
  | JVal.jarr _ => true
  | _ => false

/-- The worker_parse type check.  A string @type must be in the approved
set.  For a list @type the source computes set(event_type) &
APPROVED_EVENT_TYPES: building the set hashes every element, so a list
containing an object or array raises TypeError (modelled as none, the
exception outcome); otherwise the intersection is non-empty exactly when
some string element is approved (hashable non-strings never equal an
approved name).  Any other value is simply not approved. -/
def is_approved_type (event_type : Option JVal) : Option Bool :=
  match event_type with
  | some (JVal.jstr s) => some (approvedTypeName s)
  | some (JVal.jarr xs) =>
      if xs.any pyUnhashable then none
      else some (xs.any
        (fun v => match v with | JVal.jstr s => approvedTypeName s | _ => false))
  | _ => some false

/-- Python `a or b` on two dict.get results. -/
def pyOrJ (a b : Option JVal) : Option JVal := if pyTruthy a then a else b

/-- worker_parse: `ld_blob.get("url") or ld_blob.get("@id")`, kept only
when the selected value is a string (isinstance check), else None. -/
def potential_source_event_id (ld_blob : JVal) : Option String :=
  match pyOrJ (ld_blob.get "url") (ld_blob.get "@id") with
  | some (JVal.jstr s) => some s
  | _ => none

/-- The parameter tuple worker_parse binds into its INSERT INTO
event_raw statement (source, source_event_id, metro_id, raw_json). -/
structure EventRawInsert where
  source : JVal
  source_event_id : Option String
  metro_id : JVal
  raw_json : JVal

/-- What worker_parse does with one decoded queue package: drop it
(logged and counted as skipped), hit the broad exception handler (the
transaction is rolled back and the package counted as failed), or
execute the INSERT. -/
inductive ParseOutcome where
  | skipped : ParseOutcome
  | failed : ParseOutcome
  | inserted : EventRawInsert → ParseOutcome

/-- The per-package body of worker_parse, after json.loads succeeded.
`parseDT` stands for parse_datetime, whose dateutil core is an external
library: it receives the raw startDate value and yields a datetime or
None (non-strings and unparseable strings yield None in the source).
Two exception paths end in the broad handler as failed: a package that
decodes to a non-dict raises AttributeError at the first record.get,
and a list @type with an unhashable element raises TypeError in the
set intersection. -/
def worker_parse_step (parseDT : Option JVal → Option PyDatetime) (record : JVal) :
    ParseOutcome :=
  match record with
  | JVal.jobj _ =>
    let original_url := record.get "original_url"
    let source_metro_id := record.get "source_metro_id"
    match record.get "blob" with
    | some (JVal.jobj fs) =>
      let ld_blob := JVal.jobj fs
      if pyTruthy original_url = false then ParseOutcome.skipped
      else if pyIsNone source_metro_id then ParseOutcome.skipped
      else
        match is_approved_type (ld_blob.get "@type") with
        | none => ParseOutcome.failed
        | some false => ParseOutcome.skipped
        | some true =>
          if pyTruthy (ld_blob.get "name") = false then ParseOutcome.skipped
          else if (parseDT (ld_blob.get "startDate")).isNone then ParseOutcome.skipped
          else ParseOutcome.inserted
            { source := original_url.getD JVal.jnull
              source_event_id := potential_source_event_id ld_blob
              metro_id := source_metro_id.getD JVal.jnull
              raw_json := ld_blob }
    | _ => ParseOutcome.skipped
  | _ => ParseOutcome.failed

/-! ### The event_raw unique key and ON CONFLICT DO NOTHING

Both producers (worker_parse and insert_into_event_raw in
discovery_enhanced_events_only.py) execute the same statement
`INSERT INTO event_raw ... ON CONFLICT (source, source_event_id) DO
NOTHING` against the constraint `UNIQUE (source, source_event_id)`.  We
model the table as the list of admitted keys. -/

/-- The columns of event_raw seen by its UNIQUE (source,
source_event_id) constraint. -/
structure EventRawKey where
  source : String
  source_event_id : Option String
deriving DecidableEq

/-- PostgreSQL unique-index conflict between an existing row and a row
being inserted: same source and same non-null source_event_id.  Two
NULL source_event_id values never conflict (NULLs are distinct under a
plain UNIQUE constraint). -/
def uniqueConflict (old new : EventRawKey) : Bool :=
  old.source == new.source && old.source_event_id.isSome &&
    old.source_event_id == new.source_event_id

/-- The insert both producer paths run: on conflict, do nothing (the
statement reports zero affected rows and the caller treats that as a
successful no-op); otherwise the row is appended. -/
def insert_into_event_raw (tbl : List EventRawKey) (r : EventRawKey) : List EventRawKey :=
  if tbl.any (fun old => uniqueConflict old r) then tbl else tbl ++ [r]

/-! ### Metro containment and the final metro id (worker_normalize) -/

/-- One row of the metro reference table.  `covers` stands for the
PostGIS evaluation of `ST_Covers(bbox, point(lon, lat))`, a pure
predicate of the stored bounding shape; it is a field because the
geometry engine is external to this repository. -/
structure MetroRow where
  geonameid : Int
  covers : Rat → Rat → Bool

/-- worker_normalize.get_metro_id_for_coords: None unless both
coordinates are present; otherwise the geonameid of the first metro row
whose bbox covers the point (the SQL's LIMIT 1), or None when no row
covers it.  (A transient DB error also yields None in the source; the
query semantics are modelled here.) -/
def get_metro_id_for_coords (metros : List MetroRow) (lat lon : Option Rat) : Option Int :=
  match lat, lon with
  | some la, some lo => (metros.find? (fun m => m.covers la lo)).map (fun m => m.geonameid)
  | _, _ => none

/-- The final-metro-id choice of process_raw_event: the containment
result when it exists, else the region hint the raw record arrived
with. -/
def final_metro_id (metros : List MetroRow) (lat lon : Option Rat)
    (source_metro_geonameid : Option Int) : Option Int :=
  match get_metro_id_for_coords metros lat lon with
  | some m => some m
  | none => source_metro_geonameid

/-! ### places_api_helper.py: quota checks and venue resolution -/

/-- places_api_helper.FREE_CALLS_LIMIT (Essentials tier). -/
def FREE_CALLS_LIMIT : Nat := 10000

/-- places_api_helper.SAFETY_MARGIN_PERCENT. -/
def SAFETY_MARGIN_PERCENT : Nat := 20

/-- places_api_helper.MONTHLY_SEARCH_LIMIT =
int(FREE_CALLS_LIMIT * (100 - SAFETY_MARGIN_PERCENT) / 100) = 8000. -/
def MONTHLY_SEARCH_LIMIT : Nat := FREE_CALLS_LIMIT * (100 - SAFETY_MARGIN_PERCENT) / 100

/-- places_api_helper.DAILY_SEARCH_LIMIT = int(MONTHLY_SEARCH_LIMIT/30)
= 266 (Python's int() truncates toward zero, as Nat division does
here). -/
def DAILY_SEARCH_LIMIT : Nat := MONTHLY_SEARCH_LIMIT / 30

/-- places_api_helper.check_api_usage_limits on the recorded counts:
False as soon as today's count is at the daily cap or the month's sum is
at the monthly cap. -/
def check_api_usage_limits (today_count month_count : Nat) : Bool :=
  if DAILY_SEARCH_LIMIT ≤ today_count then false
  else if MONTHLY_SEARCH_LIMIT ≤ month_count then false
  else true

/-- The venue data the cache and the Places call both yield. -/
structure VenueData where
  formatted_address : String
  latitude : Rat
  longitude : Rat
  place_id : String
deriving DecidableEq

/-- The store state resolve_venue_address reads: the cache row for this
(venue_name, city) key, the recorded usage counts, and what the external
Places call would return if issued (external collaborator). -/
structure PlacesEnv where
  cached : Option VenueData
  today_count : Nat
  month_count : Nat
  api_result : Option VenueData

/-- places_api_helper.resolve_venue_address: returns the resolved data
and whether the external Places request was issued.  Cache hit:
cached data, no call.  Cache miss at quota: None, no call.  Otherwise
the call is issued and its result (possibly None) returned. -/
def resolve_venue_address (env : PlacesEnv) : Option VenueData × Bool :=
  match env.cached with
  | some d => (some d, false)
  | none =>
    if check_api_usage_limits env.today_count env.month_count then
      (env.api_result, true)
    else (none, false)

/-! ### poll_task_results (discovery_enhanced_events_only.py)

The loop sleeps, polls the tasks_ready endpoint, intersects the reply
with its pending set, processes matches, and — while tasks remain
pending — sleeps again at the bottom of the loop body.  The external
endpoint is modelled as an oracle giving, per attempt number, the task
ids that are ready and get fully processed (HTTP or decode failures on
a task simply leave it pending, which the oracle expresses by not
listing it). -/

/-- An observable event of the polling loop: a time.sleep of the given
duration, or one GET of the tasks_ready endpoint.  Durations are exact
fixed-point numbers in units of 1/16 second (the loop's reachable
interval values 10 * 1.5^k seconds, capped at 60, are all dyadic
rationals with denominator dividing 16, so this representation is exact
where Python uses floats; 160 = 10 s, 960 = 60 s). -/
inductive PollEvent where
  | sleep : Nat → PollEvent
  | poll : PollEvent
deriving DecidableEq

/-- The loop state of poll_task_results (interval in 1/16 s). -/
structure PollState where
  pending : List String
  interval : Nat
  attempts : Nat
  log : List PollEvent
deriving DecidableEq

/-- One iteration of the while body: bump the attempt counter, sleep the
current interval, grow the interval (times 1.5, capped at 60 s = 960
units; the halving is exact on every reachable interval value), poll,
drop the tasks the endpoint completed, and sleep again — at the already
updated interval — if tasks remain pending. -/
def pollRound (oracle : Nat → List String) (st : PollState) : PollState :=
  { pending := st.pending.filter (fun t => !(oracle (st.attempts + 1)).contains t)
    interval := min (st.interval * 3 / 2) 960
    attempts := st.attempts + 1
    log :=
      if (st.pending.filter (fun t => !(oracle (st.attempts + 1)).contains t)).isEmpty then
        st.log ++ [PollEvent.sleep st.interval, PollEvent.poll]
      else
        st.log ++ [PollEvent.sleep st.interval, PollEvent.poll,
          PollEvent.sleep (min (st.interval * 3 / 2) 960)] }

/-- The while loop: run while tasks are pending and the attempt counter
is below the cap (realized as structural fuel, which equals the number
of attempts still allowed). -/
def poll_task_results (oracle : Nat → List String) : Nat → PollState → PollState
  | 0, st => st
  | fuel + 1, st =>
      if st.pending.isEmpty then st
      else poll_task_results oracle fuel (pollRound oracle st)

/-- poll_task_results on a fresh pending set: initial interval 10 s
(160 units), attempt cap 30, no attempts or events yet. -/
def run_poll (oracle : Nat → List String) (ids : List String) : PollState :=
  poll_task_results oracle 30 { pending := ids, interval := 160, attempts := 0, log := [] }

/-- Fold step computing the elapsed waits between consecutive polls from
the event log: accumulate sleep durations, and emit the accumulator at
every poll that follows an earlier poll. -/
def waitsStep (st : List Nat × Bool × Nat) (e : PollEvent) : List Nat × Bool × Nat :=
  match e with
  | PollEvent.sleep q => (st.1, st.2.1, st.2.2 + q)
  | PollEvent.poll => (if st.2.1 then st.1 ++ [st.2.2] else st.1, true, 0)

/-- The elapsed wait (total sleeping, in 1/16 s) between each pair of
consecutive polls of a log. -/
def waitsBetweenPolls (log : List PollEvent) : List Nat :=
  (log.foldl waitsStep ([], false, 0)).1

/-- An oracle for a run in which no task ever becomes ready. -/
def pollOracleNever : Nat → List String := fun _ => []

/-! ### The worker_normalize batch loop as a transaction-state machine

The loop fetches a batch, processes each record, and commits once at
the end; the three insert-stage exception handlers roll the shared
transaction back (discarding every uncommitted sibling write) and then
record the failing record's terminal status in a transaction of its
own.  process_raw_event is side-effect-free regarding DB writes and
catches its own exceptions, so its contribution per record is just an
Option NormalizedEvent. -/

/-- A database write the normalize worker can issue: a raw record's
terminal status (mark_raw_event_status) or an event_clean INSERT. -/
inductive DbWrite where
  | status : Nat → String → DbWrite
  | clean : NormalizedEvent → DbWrite
deriving DecidableEq

/-- The connection's transaction state: writes already committed, and
writes pending in the currently open transaction (discarded by
rollback, moved to committed by commit). -/
structure TxnState where
  committed : List DbWrite
  pending : List DbWrite
deriving DecidableEq

/-- How the store answers the event_clean INSERT for one record:
success (one row), conflict suppressed by DO NOTHING (zero rows), or
one of the three exception paths of the source. -/
inductive InsertBehavior where
  | ok : InsertBehavior
  | conflictNoop : InsertBehavior
  | uniqueViolation : InsertBehavior
  | dbError : InsertBehavior
  | otherError : InsertBehavior
deriving DecidableEq

/-- One fetched raw record as the batch loop sees it: its id, what
process_raw_event returns for it (None = validation failure or caught
exception), and how the store behaves if the INSERT is attempted. -/
structure RawWorkItem where
  id : Nat
  procResult : Option NormalizedEvent
  insertBehavior : InsertBehavior
deriving DecidableEq

/-- The per-record body of the worker_normalize batch loop. -/
def worker_normalize_record (st : TxnState) (item : RawWorkItem) : TxnState :=
  match item.procResult with
  | none => { st with pending := st.pending ++ [DbWrite.status item.id "error"] }
  | some evt =>
    match make_fp evt.title evt.start_ts evt.metro_id with
    | none => { st with pending := st.pending ++ [DbWrite.status item.id "error"] }
    | some fp =>
      let evt1 := { evt with fingerprint := some fp }
      let row := { evt1 with quality_score := some (score evt1) }
      match item.insertBehavior with
      | InsertBehavior.ok =>
          { st with pending := st.pending ++
              [DbWrite.clean row, DbWrite.status item.id "processed"] }
      | InsertBehavior.conflictNoop =>
          { st with pending := st.pending ++ [DbWrite.status item.id "duplicate"] }
      | InsertBehavior.uniqueViolation =>
          { committed := st.committed ++ [DbWrite.status item.id "duplicate"], pending := [] }
      | InsertBehavior.dbError =>
          { committed := st.committed ++ [DbWrite.status item.id "error"], pending := [] }
      | InsertBehavior.otherError =>
          { committed := st.committed ++ [DbWrite.status item.id "error"], pending := [] }

/-- One whole batch of the worker: process every record, then commit the
open transaction. -/
def worker_normalize_batch (items : List RawWorkItem) : TxnState :=
  let st := items.foldl worker_normalize_record { committed := [], pending := [] }
  { committed := st.committed ++ st.pending, pending := [] }

/-- Whether the worker reaches the INSERT for this record (the record
survived process_raw_event and fingerprinting). -/
def insertAttempted (item : RawWorkItem) : Bool :=
  match item.procResult with
  | none => false
  | some evt => (make_fp evt.title evt.start_ts evt.metro_id).isSome

/-- Whether processing this record rolls back the shared transaction
(an insert-stage exception path was taken). -/
def rollsBack (item : RawWorkItem) : Bool :=
  insertAttempted item &&
    (item.insertBehavior == InsertBehavior.uniqueViolation ||
     item.insertBehavior == InsertBehavior.dbError ||
     item.insertBehavior == InsertBehavior.otherError)

/-- The terminal status a non-rollback record receives. -/
def terminalStatusOf (item : RawWorkItem) : String :=
  if insertAttempted item then
    match item.insertBehavior with
    | InsertBehavior.conflictNoop => "duplicate"
    | _ => "processed"
  else "error"

/-- The writes a non-rollback record contributes to the transaction. -/
def recordWrites (item : RawWorkItem) : List DbWrite :=
  match item.procResult with
  | none => [DbWrite.status item.id "error"]
  | some evt =>
    match make_fp evt.title evt.start_ts evt.metro_id with
    | none => [DbWrite.status item.id "error"]
    | some fp =>
      let evt1 := { evt with fingerprint := some fp }
      let row := { evt1 with quality_score := some (score evt1) }
      match item.insertBehavior with
      | InsertBehavior.conflictNoop => [DbWrite.status item.id "duplicate"]
      | _ => [DbWrite.clean row, DbWrite.status item.id "processed"]

/-- The status the rollback handlers write for the failing record
itself, in their own transaction. -/
def rollbackStatusOf (b : InsertBehavior) : String :=
  match b with
  | InsertBehavior.uniqueViolation => "duplicate"
  | _ => "error"


/-! ### Concrete data used by the theorem witnesses below -/

/-- A concrete stand-in for the external dateutil parser, used by the
concrete evaluations below: it parses the one ISO timestamp they use. -/
def parseDTExample : Option JVal → Option PyDatetime
  | some (JVal.jstr "2024-07-20T20:00:00Z") => some ⟨2024, 7, 20, 20, 0, 0⟩
  | _ => none

/-- A decoded queue package whose blob passes every admission check. -/
def packageExample : JVal := JVal.jobj
  [("original_url", JVal.jstr "https://page.example/events"),
   ("source_metro_id", JVal.jnum 5128581),
   ("blob", JVal.jobj
     [("@type", JVal.jstr "Event"),
      ("name", JVal.jstr "Salsa Night"),
      ("startDate", JVal.jstr "2024-07-20T20:00:00Z")])]

/-- A decoded queue package whose blob passes every admission check but
carries neither a "url" nor an "@id" key. -/
def packageNoBlobUrl : JVal := JVal.jobj
  [("original_url", JVal.jstr "https://page.example/events"),
   ("source_metro_id", JVal.jnum 5128581),
   ("blob", JVal.jobj
     [("@type", JVal.jstr "DanceEvent"),
      ("name", JVal.jstr "Bachata Social"),
      ("startDate", JVal.jstr "2024-07-20T20:00:00Z")])]

/-- A decoded queue package that passes the URL, region, name and
startDate checks and whose list-valued @type contains the approved
string "Event" — but also a JSON object, on which the source's
set(event_type) call raises TypeError. -/
def packageUnhashableType : JVal := JVal.jobj
  [("original_url", JVal.jstr "https://page.example/events"),
   ("source_metro_id", JVal.jnum 5128581),
   ("blob", JVal.jobj
     [("@type", JVal.jarr [JVal.jstr "Event", JVal.jobj []]),
      ("name", JVal.jstr "Salsa Night"),
      ("startDate", JVal.jstr "2024-07-20T20:00:00Z")])]

/-- The required shape of a clean row: non-null title, start timestamp
and metro_id, and a 16-character fingerprint. -/
def cleanRowOk (evt : NormalizedEvent) : Prop :=
  evt.title.isSome = true ∧ evt.start_ts.isSome = true ∧
    evt.metro_id.isSome = true ∧
    ∃ fp, evt.fingerprint = some fp ∧ fp.length = 16

/-- A process_raw_event result that passes fingerprinting. -/
def evtOk : NormalizedEvent :=
  { event_raw_id := 1, source := "https://page.example/events", source_event_id := none
    title := some "Salsa Night", description := none, url := none
    start_ts := some ⟨2024, 7, 20, 20, 0, 0⟩, end_ts := none
    venueName := some "Example Hall", venueAddress := none, venueGeom := none
    imageUrl := none, tags := ["salsa"], metro_id := some 1
    price_val := none, price_ccy := none }

/-- The clean row the worker builds for evtOk. -/
def rowOk : NormalizedEvent :=
  { evtOk with
    fingerprint := make_fp evtOk.title evtOk.start_ts evtOk.metro_id
    quality_score := some (score { evtOk with
      fingerprint := make_fp evtOk.title evtOk.start_ts evtOk.metro_id }) }

/-! ### Helper lemmas -/

set_option maxRecDepth 10000 in
/-- The SHA-1 model reproduces the standard test vector for "abc". -/
theorem sha1hex_abc_vector : sha1hex "abc" = "a9993e364706816aba3e25717850c26c9cd0d89d" := by decide


/-- A SHA-1 hexdigest always has 40 characters. -/
theorem sha1hexChars_length (msg : List Nat) : (sha1hexChars msg).length = 40 := by
  simp [sha1hexChars, hexFixed]

/-- The empty string strips to the empty string. -/
theorem pyStrip_empty : pyStrip "" = "" := by decide

set_option maxRecDepth 4000 in
/-- When make_fp produces a fingerprint, all three inputs were present
and the fingerprint has exactly 16 characters. -/
theorem make_fp_some_shape {t : Option String} {ts : Option PyDatetime} {m : Option Int}
    {fp : String} (h : make_fp t ts m = some fp) :
    t.isSome = true ∧ ts.isSome = true ∧ m.isSome = true ∧ fp.length = 16 := by
  cases t with
  | none => cases ts <;> cases m <;> simp [make_fp] at h
  | some tt =>
    cases ts with
    | none => cases m <;> simp [make_fp] at h
    | some tsv =>
      cases m with
      | none => simp [make_fp] at h
      | some mv =>
        refine ⟨rfl, rfl, rfl, ?_⟩
        by_cases he : tt = ""
        · simp [make_fp, he] at h
        · by_cases ht : pyStrip tt = ""
          · simp [make_fp, he, normalize_string, ht] at h
          · simp [make_fp, he, normalize_string, ht] at h
            have hl : fp.data.length = 16 := by
              rw [← h]
              simp [List.length_take, sha1hexChars_length]
            exact hl

/-! ### C2: fingerprint purity and determinism -/

/-- C2: make_fp is pure and deterministic.  (a) For a title that is
non-empty after normalization, a present start timestamp and a non-null
region id, it returns the first 16 hexadecimal characters of the SHA-1
of "<normalized title>|<YYYY-MM-DD>|<region id>"; (b) inputs agreeing on
(title, start day, region id) yield equal fingerprints; (c) it returns
None exactly when the title is missing or empty after normalization, the
start timestamp is missing, or the region id is null. -/
theorem C2_make_fp_pure_deterministic :
    (∀ (t : String) (ts : PyDatetime) (mid : Int), pyStrip t ≠ "" →
      make_fp (some t) (some ts) (some mid) =
        some (String.mk ((sha1hexChars (strBytes
          (pyStrip t ++ "|" ++ strftimeYmd ts ++ "|" ++ toString mid))).take 16))) ∧
    (∀ (t : Option String) (d1 d2 : PyDatetime) (mid : Option Int),
      d1.year = d2.year → d1.month = d2.month → d1.day = d2.day →
      make_fp t (some d1) mid = make_fp t (some d2) mid) ∧
    (∀ (t : Option String) (ts : Option PyDatetime) (mid : Option Int),
      make_fp t ts mid = none ↔
        ((∀ s, t = some s → pyStrip s = "") ∨ ts = none ∨ mid = none)) := by
  refine ⟨?_, ?_, ?_⟩
  · intro t ts mid ht
    have he : t ≠ "" := by
      intro hcon
      rw [hcon, pyStrip_empty] at ht
      exact ht rfl
    simp [make_fp, normalize_string, he, ht]
  · intro t d1 d2 mid hy hm hd
    have hs : strftimeYmd d1 = strftimeYmd d2 := by
      unfold strftimeYmd
      rw [hy, hm, hd]
    cases t with
    | none => cases mid <;> rfl
    | some tv =>
      cases mid with
      | none => rfl
      | some mv => simp only [make_fp, hs]
  · intro t ts mid
    constructor
    · intro h
      by_contra hc
      push_neg at hc
      obtain ⟨h1, h2, h3⟩ := hc
      obtain ⟨s, hts, hs⟩ := h1
      obtain ⟨d, rfl⟩ := Option.ne_none_iff_exists'.mp h2
      obtain ⟨mv, rfl⟩ := Option.ne_none_iff_exists'.mp h3
      subst hts
      have he : s ≠ "" := by
        intro hcon
        rw [hcon, pyStrip_empty] at hs
        exact hs rfl
      simp [make_fp, normalize_string, he, hs] at h
    · intro h
      rcases h with h | h | h
      · cases t with
        | none => cases ts <;> cases mid <;> rfl
        | some s =>
          have hs := h s rfl
          cases ts with
          | none => cases mid <;> rfl
          | some d =>
            cases mid with
            | none => rfl
            | some mv =>
              by_cases he : s = ""
              · simp [make_fp, he]
              · simp [make_fp, he, normalize_string, hs]
      · subst h; cases t <;> cases mid <;> rfl
      · subst h; cases t <;> cases ts <;> rfl

/-- Witness for C2: each part of the theorem applied at concrete
inputs. -/
theorem C2_make_fp_pure_deterministic_witness :
    (make_fp (some "Salsa Night") (some ⟨2024, 7, 20, 20, 0, 0⟩) (some 5) =
      some (String.mk ((sha1hexChars (strBytes
        (pyStrip "Salsa Night" ++ "|" ++ strftimeYmd ⟨2024, 7, 20, 20, 0, 0⟩ ++ "|" ++
          toString (5 : Int)))).take 16))) ∧
    (make_fp (some "Salsa Night") (some ⟨2024, 7, 20, 20, 0, 0⟩) (some 5) =
      make_fp (some "Salsa Night") (some ⟨2024, 7, 20, 21, 30, 0⟩) (some 5)) ∧
    (make_fp (some " ") (some ⟨2024, 7, 20, 20, 0, 0⟩) (some 5) = none ↔
      ((∀ s, (some " " : Option String) = some s → pyStrip s = "") ∨
        (some (⟨2024, 7, 20, 20, 0, 0⟩ : PyDatetime) = none) ∨
        (some (5 : Int) = none))) :=
  ⟨C2_make_fp_pure_deterministic.1 "Salsa Night" ⟨2024, 7, 20, 20, 0, 0⟩ 5 (by decide),
   C2_make_fp_pure_deterministic.2.1 (some "Salsa Night") ⟨2024, 7, 20, 20, 0, 0⟩
     ⟨2024, 7, 20, 21, 30, 0⟩ (some 5) rfl rfl rfl,
   C2_make_fp_pure_deterministic.2.2 (some " ") (some ⟨2024, 7, 20, 20, 0, 0⟩) (some 5)⟩

/-! ### C9: the additive quality score -/

/-- C9: score is the additive field-presence heuristic with the stated
point values (10 title, 10 start, 10 resolved geometry, 5 venue name,
5 description over 50 characters, 3 price, 3 trusted source, 2 URL,
2 image, 1 tags), and any event with a title, a start timestamp and a
venue name scores at least 25. -/
theorem C9_score_additive_min25 :
    (∀ evt : NormalizedEvent, score evt = score_specification evt) ∧
    (∀ evt : NormalizedEvent, pyTruthyStr evt.title = true →
      evt.start_ts.isSome = true → pyTruthyStr evt.venueName = true →
      25 ≤ score evt) := by
  constructor
  · intro evt
    rfl
  · intro evt h1 h2 h3
    simp only [score, h1, h2, h3, if_true]
    split_ifs <;> norm_num

/-- Witness for C9: a concrete event with title, start timestamp and
venue name scores at least 25. -/
theorem C9_score_additive_min25_witness :
    25 ≤ score
      { event_raw_id := 7, source := "page", source_event_id := none
        title := some "Salsa Night", description := none, url := none
        start_ts := some ⟨2024, 7, 20, 20, 0, 0⟩, end_ts := none
        venueName := some "Example Hall", venueAddress := none
        venueGeom := none, imageUrl := none, tags := [], metro_id := some 1
        price_val := none, price_ccy := none } :=
  C9_score_additive_min25.2 _ (by decide) (by decide) (by decide)

/-! ### C7: venue cache and quota gating -/

/-- check_api_usage_limits says "safe" exactly when both recorded counts
are strictly below their caps. -/
theorem check_api_usage_limits_true_iff (t m : Nat) :
    check_api_usage_limits t m = true ↔
      t < DAILY_SEARCH_LIMIT ∧ m < MONTHLY_SEARCH_LIMIT := by
  unfold check_api_usage_limits
  split_ifs with h1 h2 <;> simp <;> omega

/-- C7: the external Places request is issued only on a cache miss with
today's and the month's recorded counts strictly below the daily and
monthly caps; a cache hit returns the cached data without any call, and
a cache miss at the daily cap returns None without any call. -/
theorem C7_resolve_venue_quota_safety :
    (∀ env : PlacesEnv, (resolve_venue_address env).2 = true →
      env.cached = none ∧ env.today_count < DAILY_SEARCH_LIMIT ∧
        env.month_count < MONTHLY_SEARCH_LIMIT) ∧
    (∀ (env : PlacesEnv) (d : VenueData), env.cached = some d →
      resolve_venue_address env = (some d, false)) ∧
    (∀ env : PlacesEnv, env.cached = none → DAILY_SEARCH_LIMIT ≤ env.today_count →
      resolve_venue_address env = (none, false)) := by
  refine ⟨?_, ?_, ?_⟩
  · intro env h
    unfold resolve_venue_address at h
    cases hc : env.cached with
    | some d => rw [hc] at h; simp at h
    | none =>
      rw [hc] at h
      by_cases hq : check_api_usage_limits env.today_count env.month_count = true
      · have hb := (check_api_usage_limits_true_iff _ _).mp hq
        exact ⟨rfl, hb.1, hb.2⟩
      · simp [Bool.not_eq_true] at hq
        rw [hq] at h
        simp at h
  · intro env d hc
    unfold resolve_venue_address
    rw [hc]
  · intro env hc hd
    unfold resolve_venue_address
    rw [hc]
    have hq : check_api_usage_limits env.today_count env.month_count = false := by
      unfold check_api_usage_limits
      rw [if_pos hd]
    rw [hq]
    simp

/-- Witness for C7: the cache-hit and at-cap branches at concrete
environments (the daily cap computes to 266). -/
theorem C7_resolve_venue_quota_safety_witness :
    resolve_venue_address
        ⟨some ⟨"1 Main St, Springfield", 40, -75, "pid1"⟩, 0, 0, none⟩ =
      (some ⟨"1 Main St, Springfield", 40, -75, "pid1"⟩, false) ∧
    resolve_venue_address ⟨none, 266, 0, some ⟨"x", 0, 0, "p"⟩⟩ = (none, false) ∧
    ((none : Option VenueData) = none ∧ 265 < DAILY_SEARCH_LIMIT ∧
      0 < MONTHLY_SEARCH_LIMIT) :=
  ⟨C7_resolve_venue_quota_safety.2.1 _ ⟨"1 Main St, Springfield", 40, -75, "pid1"⟩ rfl,
   C7_resolve_venue_quota_safety.2.2 ⟨none, 266, 0, some ⟨"x", 0, 0, "p"⟩⟩ rfl (by decide),
   C7_resolve_venue_quota_safety.1 ⟨none, 265, 0, some ⟨"x", 0, 0, "p"⟩⟩ (by decide)⟩

/-! ### C3: idempotent admission (corrected for NULL source_event_id) -/

/-- C3 counterexample: the claim fails for null source_event_id — both
producer paths' ON CONFLICT (source, source_event_id) DO NOTHING insert
adds a second row when source_event_id is NULL, because the unique
constraint treats NULLs as distinct (the orchestrator's own comment
warns of exactly this). -/
theorem C3_counterexample_null_source_event_id :
    (insert_into_event_raw
      (insert_into_event_raw [] ⟨"https://page.example/a", none⟩)
      ⟨"https://page.example/a", none⟩).length = 2 := by decide

/-- C3 amended: for records whose source_event_id is non-null the insert
is idempotent — repeating it changes nothing (the conflicting insert is
a suppressed no-op, not an error), and starting from a table with no
conflicting row, two identical inserts leave exactly one row with that
(source, source_event_id). -/
theorem C3_insert_idempotent_nonnull (tbl : List EventRawKey) (r : EventRawKey)
    (hs : r.source_event_id.isSome = true) :
    (insert_into_event_raw (insert_into_event_raw tbl r) r =
      insert_into_event_raw tbl r) ∧
    ((∀ e ∈ tbl, uniqueConflict e r = false) →
      (insert_into_event_raw (insert_into_event_raw tbl r) r).countP
        (fun e => e.source == r.source && e.source_event_id == r.source_event_id) = 1) := by
  have hself : uniqueConflict r r = true := by
    unfold uniqueConflict
    simp [hs]
  cases ha : tbl.any (fun old => uniqueConflict old r) with
  | true =>
    have h1 : insert_into_event_raw tbl r = tbl := by
      unfold insert_into_event_raw
      rw [ha]
      rfl
    constructor
    · rw [h1, h1]
    · intro hnone
      exfalso
      obtain ⟨e, he, hc⟩ := List.any_eq_true.mp ha
      rw [hnone e he] at hc
      exact Bool.false_ne_true hc
  | false =>
    have h1 : insert_into_event_raw tbl r = tbl ++ [r] := by
      unfold insert_into_event_raw
      rw [ha]
      rfl
    have h2 : insert_into_event_raw (tbl ++ [r]) r = tbl ++ [r] := by
      unfold insert_into_event_raw
      have : (tbl ++ [r]).any (fun old => uniqueConflict old r) = true := by
        rw [List.any_eq_true]
        exact ⟨r, by simp, hself⟩
      rw [this]
      rfl
    constructor
    · rw [h1, h2]
    · intro hnone
      rw [h1, h2]
      rw [List.countP_append]
      have hz : tbl.countP
          (fun e => e.source == r.source && e.source_event_id == r.source_event_id) = 0 := by
        rw [List.countP_eq_zero]
        intro e he hp
        have hcf : uniqueConflict e r = true := by
          unfold uniqueConflict
          simp only [Bool.and_eq_true] at hp ⊢
          obtain ⟨hsrc, hid⟩ := hp
          refine ⟨⟨hsrc, ?_⟩, hid⟩
          have : e.source_event_id = r.source_event_id := by
            exact eq_of_beq hid
          rw [this]
          exact hs
        rw [hnone e he] at hcf
        exact Bool.false_ne_true hcf
      rw [hz]
      simp

/-- Witness for C3 amended: two inserts of a concrete non-null key into
the empty table leave one matching row, and the repeated insert is a
no-op. -/
theorem C3_insert_idempotent_nonnull_witness :
    (insert_into_event_raw
        (insert_into_event_raw [] ⟨"https://page.example/a", some "evt-1"⟩)
        ⟨"https://page.example/a", some "evt-1"⟩ =
      insert_into_event_raw [] ⟨"https://page.example/a", some "evt-1"⟩) ∧
    (insert_into_event_raw
        (insert_into_event_raw [] ⟨"https://page.example/a", some "evt-1"⟩)
        ⟨"https://page.example/a", some "evt-1"⟩).countP
      (fun e => e.source == "https://page.example/a" && e.source_event_id == some "evt-1") = 1 :=
  ⟨(C3_insert_idempotent_nonnull [] ⟨"https://page.example/a", some "evt-1"⟩ (by decide)).1,
   (C3_insert_idempotent_nonnull [] ⟨"https://page.example/a", some "evt-1"⟩ (by decide)).2
     (by intro e he; cases he)⟩

/-! ### C6: region assignment -/

/-- C6: with both coordinates resolved and some metro covering the
point, the final metro id is the geonameid of a covering metro row;
with a coordinate missing, or no covering row, the final metro id is
the raw record's region hint (null when there was none). -/
theorem C6_region_assignment :
    (∀ (metros : List MetroRow) (la lo : Rat) (hint : Option Int),
      (∃ m ∈ metros, m.covers la lo = true) →
      ∃ m ∈ metros, m.covers la lo = true ∧
        final_metro_id metros (some la) (some lo) hint = some m.geonameid) ∧
    (∀ (metros : List MetroRow) (lat lon : Option Rat) (hint : Option Int),
      lat = none ∨ lon = none → final_metro_id metros lat lon hint = hint) ∧
    (∀ (metros : List MetroRow) (la lo : Rat) (hint : Option Int),
      (∀ m ∈ metros, m.covers la lo = false) →
      final_metro_id metros (some la) (some lo) hint = hint) := by
  refine ⟨?_, ?_, ?_⟩
  · intro metros la lo hint hex
    have hsome : (metros.find? (fun m => m.covers la lo)).isSome = true := by
      rw [List.find?_isSome]
      obtain ⟨m, hm, hc⟩ := hex
      exact ⟨m, hm, hc⟩
    obtain ⟨m, hm⟩ := Option.isSome_iff_exists.mp hsome
    have hmem := List.mem_of_find?_eq_some hm
    have hp := List.find?_some hm
    refine ⟨m, hmem, hp, ?_⟩
    simp [final_metro_id, get_metro_id_for_coords, hm]
  · intro metros lat lon hint h
    rcases h with rfl | rfl
    · cases lon <;> simp [final_metro_id, get_metro_id_for_coords]
    · cases lat <;> simp [final_metro_id, get_metro_id_for_coords]
  · intro metros la lo hint h
    have hn : metros.find? (fun m => m.covers la lo) = none := by
      rw [List.find?_eq_none]
      intro m hm
      simp [h m hm]
    simp [final_metro_id, get_metro_id_for_coords, hn]

/-- Witness for C6: a point covered by a metro row resolves to that
metro's geonameid; a point covered by no row, or missing coordinates,
falls back to the hint. -/
theorem C6_region_assignment_witness :
    (∃ m ∈ [MetroRow.mk 5128581 (fun la lo => la == 40 && lo == -74)],
      m.covers (40 : Rat) (-74 : Rat) = true ∧
      final_metro_id [MetroRow.mk 5128581 (fun la lo => la == 40 && lo == -74)]
        (some (40 : Rat)) (some (-74 : Rat)) (some 1) = some m.geonameid) ∧
    final_metro_id [MetroRow.mk 5128581 (fun la lo => la == 40 && lo == -74)]
      none (some (-74 : Rat)) (some 1) = some 1 ∧
    final_metro_id [MetroRow.mk 5128581 (fun la lo => la == 40 && lo == -74)]
      (some (10 : Rat)) (some (10 : Rat)) (some 1) = some 1 :=
  ⟨C6_region_assignment.1 _ _ _ (some 1)
      ⟨_, List.mem_singleton.mpr rfl, by decide⟩,
   C6_region_assignment.2.1 _ none (some (-74 : Rat)) (some 1) (Or.inl rfl),
   C6_region_assignment.2.2 _ (10 : Rat) (10 : Rat) (some 1)
     (by intro m hm; rw [List.mem_singleton.mp hm]; decide)⟩

/-! ### C5: parse-worker admission control (corrected) -/

/-- C5 counterexample: this package carries a truthy URL, a non-null
region id, a truthy name and a parseable startDate, and its list @type
contains the approved string "Event" — the claim's checks all hold —
yet the worker does not admit it: the set() call over the @type list
raises TypeError on the object element, the broad exception handler
catches it, and the package is counted failed (not skipped), with no
row written. -/
theorem C5_counterexample_unhashable_type :
    pyTruthy (packageUnhashableType.get "original_url") = true ∧
    pyIsNone (packageUnhashableType.get "source_metro_id") = false ∧
    packageUnhashableType.get "blob" = some (JVal.jobj
      [("@type", JVal.jarr [JVal.jstr "Event", JVal.jobj []]),
       ("name", JVal.jstr "Salsa Night"),
       ("startDate", JVal.jstr "2024-07-20T20:00:00Z")]) ∧
    approvedTypeName "Event" = true ∧
    pyTruthy ((JVal.jobj
      [("@type", JVal.jarr [JVal.jstr "Event", JVal.jobj []]),
       ("name", JVal.jstr "Salsa Night"),
       ("startDate", JVal.jstr "2024-07-20T20:00:00Z")]).get "name") = true ∧
    (parseDTExample ((JVal.jobj
      [("@type", JVal.jarr [JVal.jstr "Event", JVal.jobj []]),
       ("name", JVal.jstr "Salsa Night"),
       ("startDate", JVal.jstr "2024-07-20T20:00:00Z")]).get "startDate")).isSome = true ∧
    worker_parse_step parseDTExample packageUnhashableType = ParseOutcome.failed :=
  ⟨rfl, rfl, rfl, rfl, rfl, rfl, rfl⟩

/-- C5 amended: worker_parse executes its INSERT for a decoded package
exactly when the blob is an object, the originating URL is truthy, the
region id is neither missing nor null, the @type check succeeds and
approves (a string in the approved set, or a list with no unhashable
object/array element that contains an approved string), the name is
truthy, and the startDate parses; TypeError from a list @type with an
unhashable element — after the URL and region checks pass — and a
package decoding to a non-object land in the broad exception handler
and are counted failed, not skipped; every other failing package is
dropped as skipped.  In all three non-inserted outcomes no row is
written. -/
theorem C5_parse_admission_amended :
    ∀ (parseDT : Option JVal → Option PyDatetime) (record : JVal),
      ((∃ row, worker_parse_step parseDT record = ParseOutcome.inserted row) ↔
        (∃ fs, record.get "blob" = some (JVal.jobj fs) ∧
          pyTruthy (record.get "original_url") = true ∧
          pyIsNone (record.get "source_metro_id") = false ∧
          is_approved_type ((JVal.jobj fs).get "@type") = some true ∧
          pyTruthy ((JVal.jobj fs).get "name") = true ∧
          (parseDT ((JVal.jobj fs).get "startDate")).isSome = true)) ∧
      (worker_parse_step parseDT record = ParseOutcome.failed ↔
        ((∀ rfs, record ≠ JVal.jobj rfs) ∨
          (∃ fs, record.get "blob" = some (JVal.jobj fs) ∧
            pyTruthy (record.get "original_url") = true ∧
            pyIsNone (record.get "source_metro_id") = false ∧
            is_approved_type ((JVal.jobj fs).get "@type") = none))) ∧
      (∀ xs, is_approved_type (some (JVal.jarr xs)) = none ↔
        ∃ v ∈ xs, pyUnhashable v = true) := by
  intro parseDT record
  refine ⟨?_, ?_, ?_⟩
  · constructor
    · rintro ⟨row, hrow⟩
      cases record with
      | jobj rfs =>
        unfold worker_parse_step at hrow
        cases hb : (JVal.jobj rfs).get "blob" with
        | none => rw [hb] at hrow; exact ParseOutcome.noConfusion hrow
        | some v =>
          cases v with
          | jobj fs =>
            rw [hb] at hrow
            simp only at hrow
            by_cases h1 : pyTruthy ((JVal.jobj rfs).get "original_url") = false
            · rw [if_pos h1] at hrow; exact ParseOutcome.noConfusion hrow
            · rw [if_neg h1] at hrow
              rw [Bool.not_eq_false] at h1
              by_cases h2 : pyIsNone ((JVal.jobj rfs).get "source_metro_id") = true
              · rw [if_pos h2] at hrow; exact ParseOutcome.noConfusion hrow
              · rw [if_neg h2] at hrow
                rw [Bool.not_eq_true] at h2
                cases h3 : is_approved_type ((JVal.jobj fs).get "@type") with
                | none => rw [h3] at hrow; exact ParseOutcome.noConfusion hrow
                | some b =>
                  cases b with
                  | false => rw [h3] at hrow; exact ParseOutcome.noConfusion hrow
                  | true =>
                    rw [h3] at hrow
                    simp only at hrow
                    by_cases h4 : pyTruthy ((JVal.jobj fs).get "name") = false
                    · rw [if_pos h4] at hrow; exact ParseOutcome.noConfusion hrow
                    · rw [if_neg h4] at hrow
                      rw [Bool.not_eq_false] at h4
                      by_cases h5 : (parseDT ((JVal.jobj fs).get "startDate")).isNone = true
                      · rw [if_pos h5] at hrow; exact ParseOutcome.noConfusion hrow
                      · rw [Bool.not_eq_true] at h5
                        refine ⟨fs, rfl, h1, h2, h3, h4, ?_⟩
                        cases hdt : parseDT ((JVal.jobj fs).get "startDate") with
                        | none => rw [hdt] at h5; simp at h5
                        | some d => rfl
          | jnull => rw [hb] at hrow; exact ParseOutcome.noConfusion hrow
          | jbool x => rw [hb] at hrow; exact ParseOutcome.noConfusion hrow
          | jnum x => rw [hb] at hrow; exact ParseOutcome.noConfusion hrow
          | jstr x => rw [hb] at hrow; exact ParseOutcome.noConfusion hrow
          | jarr x => rw [hb] at hrow; exact ParseOutcome.noConfusion hrow
      | jnull => exact ParseOutcome.noConfusion hrow
      | jbool x => exact ParseOutcome.noConfusion hrow
      | jnum x => exact ParseOutcome.noConfusion hrow
      | jstr x => exact ParseOutcome.noConfusion hrow
      | jarr x => exact ParseOutcome.noConfusion hrow
    · rintro ⟨fs, hfs, h1, h2, h3, h4, h5⟩
      cases record with
      | jobj rfs =>
        unfold worker_parse_step
        rw [hfs]
        simp only [h1, h2, h3, h4]
        have h5n : (parseDT ((JVal.jobj fs).get "startDate")).isNone = false := by
          cases hdt : parseDT ((JVal.jobj fs).get "startDate") with
          | none => rw [hdt] at h5; simp at h5
          | some d => rfl
        simp only [h5n]
        exact ⟨_, rfl⟩
      | jnull => cases hfs
      | jbool x => cases hfs
      | jnum x => cases hfs
      | jstr x => cases hfs
      | jarr x => cases hfs
  · constructor
    · intro hrow
      cases record with
      | jobj rfs =>
        right
        unfold worker_parse_step at hrow
        cases hb : (JVal.jobj rfs).get "blob" with
        | none => rw [hb] at hrow; exact ParseOutcome.noConfusion hrow
        | some v =>
          cases v with
          | jobj fs =>
            rw [hb] at hrow
            simp only at hrow
            by_cases h1 : pyTruthy ((JVal.jobj rfs).get "original_url") = false
            · rw [if_pos h1] at hrow; exact ParseOutcome.noConfusion hrow
            · rw [if_neg h1] at hrow
              rw [Bool.not_eq_false] at h1
              by_cases h2 : pyIsNone ((JVal.jobj rfs).get "source_metro_id") = true
              · rw [if_pos h2] at hrow; exact ParseOutcome.noConfusion hrow
              · rw [if_neg h2] at hrow
                rw [Bool.not_eq_true] at h2
                cases h3 : is_approved_type ((JVal.jobj fs).get "@type") with
                | none => exact ⟨fs, rfl, h1, h2, h3⟩
                | some b =>
                  exfalso
                  cases b with
                  | false => rw [h3] at hrow; exact ParseOutcome.noConfusion hrow
                  | true =>
                    rw [h3] at hrow
                    simp only at hrow
                    by_cases h4 : pyTruthy ((JVal.jobj fs).get "name") = false
                    · rw [if_pos h4] at hrow; exact ParseOutcome.noConfusion hrow
                    · rw [if_neg h4] at hrow
                      by_cases h5 : (parseDT ((JVal.jobj fs).get "startDate")).isNone = true
                      · rw [if_pos h5] at hrow; exact ParseOutcome.noConfusion hrow
                      · rw [if_neg h5] at hrow; exact ParseOutcome.noConfusion hrow
          | jnull => rw [hb] at hrow; exact ParseOutcome.noConfusion hrow
          | jbool x => rw [hb] at hrow; exact ParseOutcome.noConfusion hrow
          | jnum x => rw [hb] at hrow; exact ParseOutcome.noConfusion hrow
          | jstr x => rw [hb] at hrow; exact ParseOutcome.noConfusion hrow
          | jarr x => rw [hb] at hrow; exact ParseOutcome.noConfusion hrow
      | jnull => left; intro rfs h; cases h
      | jbool x => left; intro rfs h; cases h
      | jnum x => left; intro rfs h; cases h
      | jstr x => left; intro rfs h; cases h
      | jarr x => left; intro rfs h; cases h
    · intro h
      rcases h with h | h
      · cases record with
        | jobj rfs => exact absurd rfl (h rfs)
        | jnull => rfl
        | jbool x => rfl
        | jnum x => rfl
        | jstr x => rfl
        | jarr x => rfl
      · obtain ⟨fs, hfs, h1, h2, h3⟩ := h
        cases record with
        | jobj rfs =>
          unfold worker_parse_step
          rw [hfs]
          simp [h1, h2, h3]
        | jnull => cases hfs
        | jbool x => cases hfs
        | jnum x => cases hfs
        | jstr x => cases hfs
        | jarr x => cases hfs
  · intro xs
    by_cases hu : xs.any pyUnhashable = true
    · have he : is_approved_type (some (JVal.jarr xs)) = none := by
        simp only [is_approved_type]
        rw [if_pos hu]
      rw [he]
      constructor
      · intro _h; exact List.any_eq_true.mp hu
      · intro _h; rfl
    · have he : is_approved_type (some (JVal.jarr xs)) = some (xs.any
          (fun v => match v with | JVal.jstr s => approvedTypeName s | _ => false)) := by
        simp only [is_approved_type]
        rw [if_neg hu]
      rw [he]
      constructor
      · intro hcon; exact Option.noConfusion hcon
      · intro hcon; exact absurd (List.any_eq_true.mpr hcon) hu

/-- Witness for C5 amended: the well-formed concrete package is
admitted, and the unhashable-@type package takes the failed path, both
obtained through the amended theorem. -/
theorem C5_parse_admission_amended_witness :
    (∃ row, worker_parse_step parseDTExample packageExample = ParseOutcome.inserted row) ∧
    worker_parse_step parseDTExample packageUnhashableType = ParseOutcome.failed :=
  ⟨(C5_parse_admission_amended parseDTExample packageExample).1.mpr
      ⟨[("@type", JVal.jstr "Event"),
        ("name", JVal.jstr "Salsa Night"),
        ("startDate", JVal.jstr "2024-07-20T20:00:00Z")], rfl, rfl, rfl, rfl, rfl, rfl⟩,
   (C5_parse_admission_amended parseDTExample packageUnhashableType).2.1.mpr
      (Or.inr ⟨[("@type", JVal.jarr [JVal.jstr "Event", JVal.jobj []]),
        ("name", JVal.jstr "Salsa Night"),
        ("startDate", JVal.jstr "2024-07-20T20:00:00Z")], rfl, rfl, rfl, rfl⟩)⟩

/-! ### C4: the producer-scoped identifier (corrected) -/

/-- C4 counterexample: for a blob with neither a "url" nor an "@id"
string, the admitted record's source_event_id is null — the worker does
not fall back to the originating page URL (which instead lands in the
source column). -/
theorem C4_counterexample_null_identifier :
    worker_parse_step parseDTExample packageNoBlobUrl = ParseOutcome.inserted
      { source := JVal.jstr "https://page.example/events"
        source_event_id := none
        metro_id := JVal.jnum 5128581
        raw_json := JVal.jobj
          [("@type", JVal.jstr "DanceEvent"),
           ("name", JVal.jstr "Bachata Social"),
           ("startDate", JVal.jstr "2024-07-20T20:00:00Z")] } ∧
    (none : Option String) ≠ some "https://page.example/events" := by
  constructor
  · rfl
  · simp

/-- C4 amended: the identifier prefers the blob's truthy "url" value,
else its "@id" value; it is stored only when the selected value is a
string, and is null otherwise — never the originating page URL, which
is stored as the record's source column instead. -/
theorem C4_source_event_id_amended :
    (∀ (b : JVal) (s : String), b.get "url" = some (JVal.jstr s) → s ≠ "" →
      potential_source_event_id b = some s) ∧
    (∀ (b : JVal) (s : String), pyTruthy (b.get "url") = false →
      b.get "@id" = some (JVal.jstr s) →
      potential_source_event_id b = some s) ∧
    (∀ b : JVal, (∀ s, pyOrJ (b.get "url") (b.get "@id") ≠ some (JVal.jstr s)) →
      potential_source_event_id b = none) ∧
    (∀ (parseDT : Option JVal → Option PyDatetime) (record : JVal) (row : EventRawInsert),
      worker_parse_step parseDT record = ParseOutcome.inserted row →
      row.source_event_id = potential_source_event_id row.raw_json ∧
      row.source = (record.get "original_url").getD JVal.jnull) := by
  refine ⟨?_, ?_, ?_, ?_⟩
  · intro b s hurl hs
    unfold potential_source_event_id pyOrJ
    rw [hurl]
    have ht : pyTruthy (some (JVal.jstr s)) = true := by
      simp [pyTruthy, JVal.truthy, hs]
    rw [ht]
    simp
  · intro b s hurl hid
    unfold potential_source_event_id pyOrJ
    rw [hurl, hid]
    simp
  · intro b hnone
    unfold potential_source_event_id
    cases hp : pyOrJ (b.get "url") (b.get "@id") with
    | none => rfl
    | some v =>
      cases v with
      | jstr s => exact absurd hp (hnone s)
      | jnull => rfl
      | jbool x => rfl
      | jnum x => rfl
      | jarr x => rfl
      | jobj x => rfl
  · intro parseDT record row hrow
    cases record with
    | jobj rfs =>
      unfold worker_parse_step at hrow
      cases hb : (JVal.jobj rfs).get "blob" with
      | none => rw [hb] at hrow; exact ParseOutcome.noConfusion hrow
      | some v =>
        cases v with
        | jobj fs =>
          rw [hb] at hrow
          simp only at hrow
          by_cases h1 : pyTruthy ((JVal.jobj rfs).get "original_url") = false
          · rw [if_pos h1] at hrow; exact ParseOutcome.noConfusion hrow
          · rw [if_neg h1] at hrow
            by_cases h2 : pyIsNone ((JVal.jobj rfs).get "source_metro_id") = true
            · rw [if_pos h2] at hrow; exact ParseOutcome.noConfusion hrow
            · rw [if_neg h2] at hrow
              cases h3 : is_approved_type ((JVal.jobj fs).get "@type") with
              | none => rw [h3] at hrow; exact ParseOutcome.noConfusion hrow
              | some b =>
                cases b with
                | false => rw [h3] at hrow; exact ParseOutcome.noConfusion hrow
                | true =>
                  rw [h3] at hrow
                  simp only at hrow
                  by_cases h4 : pyTruthy ((JVal.jobj fs).get "name") = false
                  · rw [if_pos h4] at hrow; exact ParseOutcome.noConfusion hrow
                  · rw [if_neg h4] at hrow
                    by_cases h5 : (parseDT ((JVal.jobj fs).get "startDate")).isNone = true
                    · rw [if_pos h5] at hrow; exact ParseOutcome.noConfusion hrow
                    · rw [if_neg h5] at hrow
                      obtain rfl := (ParseOutcome.inserted.injEq _ _).mp hrow.symm
                      exact ⟨rfl, rfl⟩
        | jnull => rw [hb] at hrow; exact ParseOutcome.noConfusion hrow
        | jbool x => rw [hb] at hrow; exact ParseOutcome.noConfusion hrow
        | jnum x => rw [hb] at hrow; exact ParseOutcome.noConfusion hrow
        | jstr x => rw [hb] at hrow; exact ParseOutcome.noConfusion hrow
        | jarr x => rw [hb] at hrow; exact ParseOutcome.noConfusion hrow
    | jnull => exact ParseOutcome.noConfusion hrow
    | jbool x => exact ParseOutcome.noConfusion hrow
    | jnum x => exact ParseOutcome.noConfusion hrow
    | jstr x => exact ParseOutcome.noConfusion hrow
    | jarr x => exact ParseOutcome.noConfusion hrow

/-- Witness for C4 amended: concrete blobs exercising the url branch,
the @id branch, the non-string branch, and the inserted-row linkage. -/
theorem C4_source_event_id_amended_witness :
    potential_source_event_id (JVal.jobj [("url", JVal.jstr "https://e.example/1")]) =
      some "https://e.example/1" ∧
    potential_source_event_id (JVal.jobj [("@id", JVal.jstr "evt-77")]) = some "evt-77" ∧
    potential_source_event_id (JVal.jobj [("url", JVal.jnum 7)]) = none ∧
    ((worker_parse_step parseDTExample packageNoBlobUrl = ParseOutcome.inserted
        { source := JVal.jstr "https://page.example/events"
          source_event_id := none
          metro_id := JVal.jnum 5128581
          raw_json := JVal.jobj
            [("@type", JVal.jstr "DanceEvent"),
             ("name", JVal.jstr "Bachata Social"),
             ("startDate", JVal.jstr "2024-07-20T20:00:00Z")] }) →
      (none : Option String) = potential_source_event_id (JVal.jobj
        [("@type", JVal.jstr "DanceEvent"),
         ("name", JVal.jstr "Bachata Social"),
         ("startDate", JVal.jstr "2024-07-20T20:00:00Z")]) ∧
      JVal.jstr "https://page.example/events" =
        (packageNoBlobUrl.get "original_url").getD JVal.jnull) :=
  ⟨C4_source_event_id_amended.1 _ "https://e.example/1" rfl (by simp),
   C4_source_event_id_amended.2.1 _ "evt-77" rfl rfl,
   C4_source_event_id_amended.2.2.1 _ (fun s h => by cases h),
   fun hrow => C4_source_event_id_amended.2.2.2 parseDTExample packageNoBlobUrl _ hrow⟩

/-! ### C8: the polling loop (corrected for the double sleep) -/

/-- The attempt counter grows by at most the remaining fuel. -/
theorem poll_task_results_attempts_le (oracle : Nat → List String) :
    ∀ (fuel : Nat) (st : PollState),
      (poll_task_results oracle fuel st).attempts ≤ st.attempts + fuel := by
  intro fuel
  induction fuel with
  | zero => intro st; simp [poll_task_results]
  | succ n ih =>
    intro st
    unfold poll_task_results
    by_cases hp : st.pending.isEmpty
    · rw [if_pos hp]; omega
    · rw [if_neg hp]
      have h := ih (pollRound oracle st)
      have ha : (pollRound oracle st).attempts = st.attempts + 1 := rfl
      omega

/-- The pending set after one round is the filtered pending set. -/
theorem pollRound_pending (oracle : Nat → List String) (st : PollState) :
    (pollRound oracle st).pending =
      st.pending.filter (fun t => !(oracle (st.attempts + 1)).contains t) := rfl

/-- One round appends one pre-poll sleep of the current interval, one
poll, and — while tasks remain pending — one more sleep of the updated
interval. -/
theorem pollRound_log_cases (oracle : Nat → List String) (st : PollState) :
    (pollRound oracle st).log =
      st.log ++ [PollEvent.sleep st.interval, PollEvent.poll] ∨
    (pollRound oracle st).log =
      st.log ++ [PollEvent.sleep st.interval, PollEvent.poll,
        PollEvent.sleep (min (st.interval * 3 / 2) 960)] := by
  unfold pollRound
  by_cases hq : (st.pending.filter
      (fun t => !(oracle (st.attempts + 1)).contains t)).isEmpty = true
  · left
    rw [if_pos hq]
  · right
    rw [if_neg hq]

/-- Each loop iteration logs exactly one poll, so the number of logged
polls equals the attempt counter. -/
theorem poll_task_results_poll_count (oracle : Nat → List String) :
    ∀ (fuel : Nat) (st : PollState),
      st.log.countP (fun e => match e with | PollEvent.poll => true | _ => false) =
        st.attempts →
      (poll_task_results oracle fuel st).log.countP
          (fun e => match e with | PollEvent.poll => true | _ => false) =
        (poll_task_results oracle fuel st).attempts := by
  intro fuel
  induction fuel with
  | zero => intro st h; simpa [poll_task_results] using h
  | succ n ih =>
    intro st h
    unfold poll_task_results
    by_cases hp : st.pending.isEmpty
    · rw [if_pos hp]; exact h
    · rw [if_neg hp]
      refine ih (pollRound oracle st) ?_
      have ha : (pollRound oracle st).attempts = st.attempts + 1 := rfl
      rcases pollRound_log_cases oracle st with hl | hl <;>
        simp [hl, ha, List.countP_append, List.countP_cons, h]

/-- Every logged sleep is at most 60 seconds (960 units), given the
interval starts at most there. -/
theorem poll_task_results_sleep_le (oracle : Nat → List String) :
    ∀ (fuel : Nat) (st : PollState), st.interval ≤ 960 →
      (∀ q : Nat, PollEvent.sleep q ∈ st.log → q ≤ 960) →
      (∀ q : Nat, PollEvent.sleep q ∈ (poll_task_results oracle fuel st).log → q ≤ 960) := by
  intro fuel
  induction fuel with
  | zero => intro st hi hl; simpa [poll_task_results] using hl
  | succ n ih =>
    intro st hi hl
    unfold poll_task_results
    by_cases hp : st.pending.isEmpty
    · rw [if_pos hp]; exact hl
    · rw [if_neg hp]
      have hint : (pollRound oracle st).interval = min (st.interval * 3 / 2) 960 := rfl
      refine ih (pollRound oracle st) (by rw [hint]; exact min_le_right _ _) ?_
      intro q hq
      rcases pollRound_log_cases oracle st with hl2 | hl2 <;> rw [hl2] at hq <;>
        simp only [List.mem_append, List.mem_cons, List.mem_singleton,
          List.not_mem_nil, or_false] at hq
      · rcases hq with hq | hq | hq
        · exact hl q hq
        · cases hq; exact hi
        · cases hq
      · rcases hq with hq | hq | hq | hq
        · exact hl q hq
        · cases hq; exact hi
        · cases hq
        · cases hq; exact min_le_right _ _

/-- Pending tasks only ever shrink. -/
theorem poll_task_results_pending_subset (oracle : Nat → List String) :
    ∀ (fuel : Nat) (st : PollState) (t : String),
      t ∈ (poll_task_results oracle fuel st).pending → t ∈ st.pending := by
  intro fuel
  induction fuel with
  | zero => intro st t h; simpa [poll_task_results] using h
  | succ n ih =>
    intro st t h
    unfold poll_task_results at h
    by_cases hp : st.pending.isEmpty
    · rw [if_pos hp] at h; exact h
    · rw [if_neg hp] at h
      have h2 := ih (pollRound oracle st) t h
      rw [pollRound_pending] at h2
      exact List.mem_of_mem_filter h2

/-- C8 counterexample: with a task that never becomes ready, the wait
between the fifth and sixth polls is 120 seconds (1920 units), not at
most the claimed 60-second cap (960 units) — the loop sleeps twice per
round (before the poll, and again at the bottom of the body while tasks
remain). -/
theorem C8_counterexample_double_sleep :
    (waitsBetweenPolls (run_poll pollOracleNever ["task-a"]).log).getD 4 0 = 1920 ∧
    ¬((waitsBetweenPolls (run_poll pollOracleNever ["task-a"]).log).getD 4 0 ≤ 960) := by
  constructor <;> decide

/-- C8 amended: the loop performs at most 30 poll attempts (exactly one
poll per attempt); its backoff interval variable is multiplied by 1.5
per round and capped at 60 seconds, so every single sleep is at most
60 seconds (960 units) — but the loop sleeps twice per round while
tasks remain, so the elapsed wait between consecutive polls reaches
double the cap; on exhausting the attempts the loop exits non-fatally
with the still pending ids (a subset of the input ids) left to
report. -/
theorem C8_poll_loop_bounded (oracle : Nat → List String) (ids : List String) :
    (run_poll oracle ids).attempts ≤ 30 ∧
    (run_poll oracle ids).log.countP
        (fun e => match e with | PollEvent.poll => true | _ => false) =
      (run_poll oracle ids).attempts ∧
    (∀ q : Nat, PollEvent.sleep q ∈ (run_poll oracle ids).log → q ≤ 960) ∧
    (∀ t, t ∈ (run_poll oracle ids).pending → t ∈ ids) ∧
    (∀ st : PollState, (pollRound oracle st).interval = min (st.interval * 3 / 2) 960) :=
  ⟨poll_task_results_attempts_le oracle 30 _,
   poll_task_results_poll_count oracle 30 _ rfl,
   poll_task_results_sleep_le oracle 30 _ (by norm_num) (by intro q hq; cases hq),
   fun t ht => poll_task_results_pending_subset oracle 30 _ t ht,
   fun st => rfl⟩

/-- Witness for C8 amended: the sleep bound and the pending-subset
conclusion at a concrete never-ready run. -/
theorem C8_poll_loop_bounded_witness :
    (run_poll pollOracleNever ["task-a"]).attempts ≤ 30 ∧
    (160 ≤ 960) ∧ ("task-a" ∈ ["task-a"]) :=
  ⟨(C8_poll_loop_bounded pollOracleNever ["task-a"]).1,
   (C8_poll_loop_bounded pollOracleNever ["task-a"]).2.2.1 160 (by decide),
   (C8_poll_loop_bounded pollOracleNever ["task-a"]).2.2.2.1 "task-a" (by decide)⟩

/-! ### C10: completeness of committed clean rows -/

/-- Any clean write a record step introduces satisfies cleanRowOk; all
other clean writes were already in the transaction state. -/
theorem worker_normalize_record_clean (st : TxnState) (item : RawWorkItem)
    (evt : NormalizedEvent)
    (h : DbWrite.clean evt ∈ (worker_normalize_record st item).committed ++
      (worker_normalize_record st item).pending) :
    DbWrite.clean evt ∈ st.committed ++ st.pending ∨ cleanRowOk evt := by
  cases hpr : item.procResult with
  | none =>
    left
    simp only [worker_normalize_record, hpr] at h
    simp only [List.append_assoc, List.mem_append, List.mem_singleton] at h
    rcases h with h | h | h
    · exact List.mem_append_left _ h
    · exact List.mem_append_right _ h
    · cases h
  | some evt0 =>
    cases hfp : make_fp evt0.title evt0.start_ts evt0.metro_id with
    | none =>
      left
      simp only [worker_normalize_record, hpr, hfp] at h
      simp only [List.append_assoc, List.mem_append, List.mem_singleton] at h
      rcases h with h | h | h
      · exact List.mem_append_left _ h
      · exact List.mem_append_right _ h
      · cases h
    | some fp =>
      have hshape := make_fp_some_shape hfp
      cases hb : item.insertBehavior with
      | ok =>
        simp only [worker_normalize_record, hpr, hfp, hb] at h
        simp only [List.append_assoc, List.mem_append, List.mem_cons,
          List.mem_singleton] at h
        rcases h with h | h | h | h | h
        · exact Or.inl (List.mem_append_left _ h)
        · exact Or.inl (List.mem_append_right _ h)
        · obtain rfl := (DbWrite.clean.injEq _ _).mp h.symm
          exact Or.inr ⟨hshape.1, hshape.2.1, hshape.2.2.1, fp, rfl, hshape.2.2.2⟩
        · exact DbWrite.noConfusion h
        · cases h
      | conflictNoop =>
        left
        simp only [worker_normalize_record, hpr, hfp, hb] at h
        simp only [List.append_assoc, List.mem_append, List.mem_singleton] at h
        rcases h with h | h | h
        · exact List.mem_append_left _ h
        · exact List.mem_append_right _ h
        · cases h
      | uniqueViolation =>
        left
        simp only [worker_normalize_record, hpr, hfp, hb] at h
        simp only [List.mem_append, List.mem_singleton] at h
        rcases h with (h | h) | h
        · exact List.mem_append_left _ h
        · cases h
        · cases h
      | dbError =>
        left
        simp only [worker_normalize_record, hpr, hfp, hb] at h
        simp only [List.mem_append, List.mem_singleton] at h
        rcases h with (h | h) | h
        · exact List.mem_append_left _ h
        · cases h
        · cases h
      | otherError =>
        left
        simp only [worker_normalize_record, hpr, hfp, hb] at h
        simp only [List.mem_append, List.mem_singleton] at h
        rcases h with (h | h) | h
        · exact List.mem_append_left _ h
        · cases h
        · cases h

/-- Folding the record step only introduces cleanRowOk clean writes. -/
theorem worker_normalize_foldl_clean (items : List RawWorkItem) :
    ∀ (st : TxnState) (evt : NormalizedEvent),
      DbWrite.clean evt ∈ (items.foldl worker_normalize_record st).committed ++
        (items.foldl worker_normalize_record st).pending →
      DbWrite.clean evt ∈ st.committed ++ st.pending ∨ cleanRowOk evt := by
  induction items with
  | nil => intro st evt h; exact Or.inl h
  | cons a rest ih =>
    intro st evt h
    rcases ih (worker_normalize_record st a) evt h with h2 | h2
    · exact worker_normalize_record_clean st a evt h2
    · exact Or.inr h2

/-- C10: every event_clean row committed by a worker_normalize batch has
a non-null title, a non-null start timestamp, a non-null metro_id, and a
16-character fingerprint — the dedup key (metro_id, fingerprint) of a
committed clean row is never null. -/
theorem C10_clean_rows_complete (items : List RawWorkItem) (evt : NormalizedEvent)
    (h : DbWrite.clean evt ∈ (worker_normalize_batch items).committed) :
    evt.title.isSome = true ∧ evt.start_ts.isSome = true ∧
      evt.metro_id.isSome = true ∧
      ∃ fp, evt.fingerprint = some fp ∧ fp.length = 16 := by
  unfold worker_normalize_batch at h
  rcases worker_normalize_foldl_clean items { committed := [], pending := [] } evt
    (by simpa using h) with h2 | h2
  · simp at h2
  · exact h2

/-! ### C1: batch isolation (corrected) -/

/-- A record that does not roll back leaves committed writes unchanged
and appends its own writes to the open transaction. -/
theorem worker_normalize_record_noRollback (st : TxnState) (item : RawWorkItem)
    (h : rollsBack item = false) :
    (worker_normalize_record st item).committed = st.committed ∧
    (worker_normalize_record st item).pending = st.pending ++ recordWrites item := by
  cases hpr : item.procResult with
  | none => simp [worker_normalize_record, recordWrites, hpr]
  | some evt0 =>
    cases hfp : make_fp evt0.title evt0.start_ts evt0.metro_id with
    | none => simp [worker_normalize_record, recordWrites, hpr, hfp]
    | some fp =>
      have hA : insertAttempted item = true := by simp [insertAttempted, hpr, hfp]
      cases hb : item.insertBehavior with
      | ok => simp [worker_normalize_record, recordWrites, hpr, hfp, hb]
      | conflictNoop => simp [worker_normalize_record, recordWrites, hpr, hfp, hb]
      | uniqueViolation => rw [rollsBack, hA, hb] at h; simp at h
      | dbError => rw [rollsBack, hA, hb] at h; simp at h
      | otherError => rw [rollsBack, hA, hb] at h; simp at h

/-- A non-rollback record's own writes contain its terminal status. -/
theorem status_mem_recordWrites (item : RawWorkItem) (h : rollsBack item = false) :
    DbWrite.status item.id (terminalStatusOf item) ∈ recordWrites item := by
  cases hpr : item.procResult with
  | none => simp [recordWrites, terminalStatusOf, insertAttempted, hpr]
  | some evt0 =>
    cases hfp : make_fp evt0.title evt0.start_ts evt0.metro_id with
    | none => simp [recordWrites, terminalStatusOf, insertAttempted, hpr, hfp]
    | some fp =>
      have hA : insertAttempted item = true := by simp [insertAttempted, hpr, hfp]
      cases hb : item.insertBehavior with
      | ok => simp [recordWrites, terminalStatusOf, hpr, hfp, hb, hA]
      | conflictNoop => simp [recordWrites, terminalStatusOf, hpr, hfp, hb, hA]
      | uniqueViolation => rw [rollsBack, hA, hb] at h; simp at h
      | dbError => rw [rollsBack, hA, hb] at h; simp at h
      | otherError => rw [rollsBack, hA, hb] at h; simp at h

/-- Folding a batch with no rollback record keeps committed writes and
appends every record's writes in order. -/
theorem worker_normalize_foldl_noRollback (items : List RawWorkItem) :
    ∀ st : TxnState, (∀ item ∈ items, rollsBack item = false) →
      (items.foldl worker_normalize_record st).committed = st.committed ∧
      (items.foldl worker_normalize_record st).pending =
        st.pending ++ items.flatMap recordWrites := by
  induction items with
  | nil => intro st h; simp
  | cons a rest ih =>
    intro st h
    have ha := worker_normalize_record_noRollback st a (h a (List.mem_cons_self a rest))
    have hr := ih (worker_normalize_record st a)
      (fun i hi => h i (List.mem_cons_of_mem a hi))
    constructor
    · rw [List.foldl_cons, hr.1, ha.1]
    · rw [List.foldl_cons, hr.2, ha.2, List.flatMap_cons, List.append_assoc]

/-- Committed writes survive every record step. -/
theorem worker_normalize_record_committed_mono (st : TxnState) (item : RawWorkItem)
    (w : DbWrite) (h : w ∈ st.committed) :
    w ∈ (worker_normalize_record st item).committed := by
  cases hpr : item.procResult with
  | none => simpa [worker_normalize_record, hpr] using h
  | some evt0 =>
    cases hfp : make_fp evt0.title evt0.start_ts evt0.metro_id with
    | none => simpa [worker_normalize_record, hpr, hfp] using h
    | some fp =>
      cases hb : item.insertBehavior with
      | ok => simpa [worker_normalize_record, hpr, hfp, hb] using h
      | conflictNoop => simpa [worker_normalize_record, hpr, hfp, hb] using h
      | uniqueViolation =>
        simp only [worker_normalize_record, hpr, hfp, hb]
        exact List.mem_append_left _ h
      | dbError =>
        simp only [worker_normalize_record, hpr, hfp, hb]
        exact List.mem_append_left _ h
      | otherError =>
        simp only [worker_normalize_record, hpr, hfp, hb]
        exact List.mem_append_left _ h

/-- A rollback record's step commits that record's own terminal status
in its separate transaction. -/
theorem worker_normalize_record_rollback_status (st : TxnState) (item : RawWorkItem)
    (h : rollsBack item = true) :
    DbWrite.status item.id (rollbackStatusOf item.insertBehavior) ∈
      (worker_normalize_record st item).committed := by
  cases hpr : item.procResult with
  | none => simp [rollsBack, insertAttempted, hpr] at h
  | some evt0 =>
    cases hfp : make_fp evt0.title evt0.start_ts evt0.metro_id with
    | none => simp [rollsBack, insertAttempted, hpr, hfp] at h
    | some fp =>
      cases hb : item.insertBehavior with
      | ok => simp [rollsBack, insertAttempted, hpr, hfp, hb] at h
      | conflictNoop => simp [rollsBack, insertAttempted, hpr, hfp, hb] at h
      | uniqueViolation => simp [worker_normalize_record, rollbackStatusOf, hpr, hfp, hb]
      | dbError => simp [worker_normalize_record, rollbackStatusOf, hpr, hfp, hb]
      | otherError => simp [worker_normalize_record, rollbackStatusOf, hpr, hfp, hb]

/-- Committed writes survive the whole fold. -/
theorem worker_normalize_foldl_committed_mono (items : List RawWorkItem) :
    ∀ (st : TxnState) (w : DbWrite), w ∈ st.committed →
      w ∈ (items.foldl worker_normalize_record st).committed := by
  induction items with
  | nil => intro st w h; exact h
  | cons a rest ih =>
    intro st w h
    exact ih (worker_normalize_record st a) w
      (worker_normalize_record_committed_mono st a w h)

/-- Every rollback record of a batch gets its own terminal status
committed, whatever else happens later in the batch. -/
theorem worker_normalize_foldl_rollback (items : List RawWorkItem) :
    ∀ (st : TxnState) (item : RawWorkItem), item ∈ items → rollsBack item = true →
      DbWrite.status item.id (rollbackStatusOf item.insertBehavior) ∈
        (items.foldl worker_normalize_record st).committed := by
  induction items with
  | nil => intro st item h; simp at h
  | cons a rest ih =>
    intro st item hmem hrb
    rcases List.mem_cons.mp hmem with rfl | hmem2
    · exact worker_normalize_foldl_committed_mono rest _ _
        (worker_normalize_record_rollback_status st item hrb)
    · exact ih (worker_normalize_record st a) item hmem2 hrb

set_option maxRecDepth 40000 in
/-- C1 counterexample: in a batch where record 1 transforms and inserts
successfully and record 2's insert raises a database error, the
handler's rollback discards record 1's uncommitted insert and status —
the batch commits only record 2's error status, so record 1 reaches no
terminal status in this run (the batch loop commits per batch, not per
record). -/
theorem C1_counterexample_insert_failure_rolls_back_sibling :
    (worker_normalize_batch
      [⟨1, some evtOk, InsertBehavior.ok⟩,
       ⟨2, some evtOk, InsertBehavior.dbError⟩]).committed =
      [DbWrite.status 2 "error"] := by decide

/-- C1 amended: isolation holds for transformation and fingerprint
failures but not across insert-stage exceptions.  (a) In a batch where
no record takes an insert-stage exception path, every record's terminal
status is committed — "error" for records that fail before the insert —
so a record that throws during transformation cannot disturb its
siblings; (b) a record whose insert raises is itself marked in its own
transaction ("duplicate" on unique violation, "error" otherwise), but
its rollback discards sibling writes still pending in the shared
transaction, as the counterexample shows. -/
theorem C1_batch_isolation_amended :
    (∀ items : List RawWorkItem, (∀ item ∈ items, rollsBack item = false) →
      ∀ item ∈ items,
        DbWrite.status item.id (terminalStatusOf item) ∈
          (worker_normalize_batch items).committed ∧
        (insertAttempted item = false → terminalStatusOf item = "error")) ∧
    (∀ (items : List RawWorkItem) (item : RawWorkItem), item ∈ items →
      rollsBack item = true →
      DbWrite.status item.id (rollbackStatusOf item.insertBehavior) ∈
        (worker_normalize_batch items).committed) := by
  constructor
  · intro items hall item hmem
    constructor
    · have hf := worker_normalize_foldl_noRollback items
        { committed := [], pending := [] } hall
      unfold worker_normalize_batch
      simp only [hf.1, hf.2, List.nil_append, List.mem_append]
      exact List.mem_flatMap.mpr
        ⟨item, hmem, status_mem_recordWrites item (hall item hmem)⟩
    · intro hna
      simp [terminalStatusOf, hna]
  · intro items item hmem hrb
    unfold worker_normalize_batch
    exact List.mem_append_left _
      (worker_normalize_foldl_rollback items { committed := [], pending := [] }
        item hmem hrb)

set_option maxRecDepth 40000 in
/-- Witness for C1 amended: the spec's five-record example — record 3
fails transformation, the others process or deduplicate — commits an
error status for record 3; and a two-record batch whose second insert
raises a DB error still commits that record's error status. -/
theorem C1_batch_isolation_amended_witness :
    (DbWrite.status 3 "error" ∈
      (worker_normalize_batch
        [⟨1, some evtOk, InsertBehavior.ok⟩,
         ⟨2, some evtOk, InsertBehavior.ok⟩,
         ⟨3, none, InsertBehavior.ok⟩,
         ⟨4, some evtOk, InsertBehavior.ok⟩,
         ⟨5, some evtOk, InsertBehavior.conflictNoop⟩]).committed) ∧
    (DbWrite.status 2 (rollbackStatusOf InsertBehavior.dbError) ∈
      (worker_normalize_batch
        [⟨1, some evtOk, InsertBehavior.ok⟩,
         ⟨2, some evtOk, InsertBehavior.dbError⟩]).committed) :=
  ⟨(C1_batch_isolation_amended.1 _ (by decide) ⟨3, none, InsertBehavior.ok⟩
      (by decide)).1,
   C1_batch_isolation_amended.2 _ ⟨2, some evtOk, InsertBehavior.dbError⟩
     (by decide) (by decide)⟩

set_option maxRecDepth 40000 in
/-- Witness for C10: the committed clean row of a concrete successful
batch has all four dedup-key ingredients present. -/
theorem C10_clean_rows_complete_witness :
    rowOk.title.isSome = true ∧ rowOk.start_ts.isSome = true ∧
      rowOk.metro_id.isSome = true ∧
      ∃ fp, rowOk.fingerprint = some fp ∧ fp.length = 16 :=
  C10_clean_rows_complete [⟨1, some evtOk, InsertBehavior.ok⟩] rowOk (by decide)
